import Mathlib

/-!
Verification of the qruise-pasquans-interface provider/dispatch layer.

The Python package is embedded shallowly:
* Python values appearing in result envelopes become the inductive `PyVal`;
  Python `dict`s become insertion-ordered association lists with Python 3.7
  update semantics (`pyInsert`, `pyLookup`).
* A raising Python call becomes `Except String α`, the error being `str(e)`
  of the raised exception.  A bare failed `assert cond` raises
  `AssertionError()` whose `str` is the empty string, hence `pyAssert`.
* The pint quantity layer (`units.py`, pint `Quantity`) is external to the
  sources and is modelled from the spec, see `Dimension` / `Quantity` below.
-/

namespace Pasquans

/-- Python dimensionality of a pint quantity, as integer exponents of the
base dimensions used by this package.
Modelled from the spec: the units sub-interface (length, time, frequency,
angle, dimensionless); `units.py` itself is not among the sources.  In the
pint registry the radian is dimensionless, frequency is time⁻¹. -/
structure Dimension where
  length : Int
  time : Int
  deriving DecidableEq, Repr

def dim_length : Dimension := ⟨1, 0⟩

def dim_time : Dimension := ⟨0, 1⟩

def dim_frequency : Dimension := ⟨0, -1⟩

def dim_none : Dimension := ⟨0, 0⟩

/-- A concrete unit: a dimension together with the linear scale factor to
the base (SI) unit of that dimension.
Modelled from the spec: units convert by multiplicative factors only
("linear scaling, no implicit 2π"). -/
structure UnitDesc where
  dim : Dimension
  scale : Rat
  deriving DecidableEq, Repr

def u_meter : UnitDesc := ⟨dim_length, 1⟩

def u_micrometer : UnitDesc := ⟨dim_length, 1 / 1000000⟩

def u_second : UnitDesc := ⟨dim_time, 1⟩

def u_microsecond : UnitDesc := ⟨dim_time, 1 / 1000000⟩

def u_hertz : UnitDesc := ⟨dim_frequency, 1⟩

def u_megahertz : UnitDesc := ⟨dim_frequency, 1000000⟩

/-- `rad/s`: the radian is dimensionless in the pint registry, so the
dimension is that of `1/s` and the scale is 1. -/
def u_rad_per_second : UnitDesc := ⟨dim_frequency, 1⟩

def u_dimensionless : UnitDesc := ⟨dim_none, 1⟩

/-- A pint `Quantity`: a magnitude (scalar values are one-element arrays)
tagged with a unit.  Modelled from the spec: `Q_(magnitude, unit)` supports
`.to(unit)`, `.dimensionality`, `.dimensionless`. -/
structure Quantity where
  magnitude : List Rat
  unit : UnitDesc
  deriving DecidableEq, Repr

/-- `Q_(magnitude, unit)`, the quantity constructor of the units layer. -/
def Q_ (magnitude : List Rat) (unit : UnitDesc) : Quantity := ⟨magnitude, unit⟩

def Quantity.dimensionality (q : Quantity) : Dimension := q.unit.dim

def Quantity.dimensionless (q : Quantity) : Bool :=
  q.unit.dim = dim_none

/-- `q.to(u)`: linear rescaling of the magnitude; raises pint's
`DimensionalityError` when the dimensions differ. -/
def Quantity.to (q : Quantity) (u : UnitDesc) : Except String Quantity :=
  if q.unit.dim = u.dim then
    .ok ⟨q.magnitude.map (fun m => m * q.unit.scale / u.scale), u⟩
  else
    .error "DimensionalityError"

/-- A Python value as it appears in the request/result envelopes. -/
inductive PyVal where
  | str : String → PyVal
  | float : Rat → PyVal
  | list : List PyVal → PyVal
  | dict : List (String × PyVal) → PyVal
  | none : PyVal
  | quant : Quantity → PyVal

/-- Python `type(v).__name__`, used in `AttributeError` messages. -/
def pyTypeName : PyVal → String
  | .str _ => "str"
  | .float _ => "float"
  | .list _ => "list"
  | .dict _ => "dict"
  | .none => "NoneType"
  | .quant _ => "Quantity"

/-- Python `len(v)` for list values. -/
def pyValLen : PyVal → Option Nat
  | .list l => some l.length
  | _ => Option.none

/-- `d[k] = v` on a Python 3.7+ dict: an existing key keeps its position
and gets the new value; a new key is appended. -/
def pyInsert {α : Type} (d : List (String × α)) (k : String) (v : α) :
    List (String × α) :=
  if d.any (fun p => p.1 == k) then
    d.map (fun p => if p.1 == k then (k, v) else p)
  else
    d ++ [(k, v)]

/-- `d.get(k)` / `d[k]` lookup on a Python dict. -/
def pyLookup {α : Type} (d : List (String × α)) (k : String) : Option α :=
  (d.find? (fun p => p.1 == k)).map Prod.snd

abbrev PyDict := List (String × PyVal)

/-- A Python `assert cond`: a failure raises `AssertionError()` whose
message (`str(e)`) is the empty string. -/
def pyAssert (cond : Bool) : Except String Unit :=
  if cond then .ok () else .error ""

/-- Attribute access `v.<attr>` expecting a pint quantity; any other value
raises `AttributeError`. -/
def getattr_quantity (v : PyVal) (attr : String) : Except String Quantity :=
  match v with
  | .quant q => .ok q
  | _ => .error ("'" ++ pyTypeName v ++ "' object has no attribute '" ++ attr ++ "'")

/-- The keyword arguments the dispatch function `simulate` forwards to the
resolved backend's `simulate` method. -/
structure SimRequest where
  lattice_sites : PyVal
  global_rabi_frequency : PyVal
  global_phase : PyVal
  global_detuning : PyVal
  local_detuning : PyVal
  init_state : PyVal
  timegrid : PyVal
  backend_options : PyVal

/-- A registered backend instance: its `name`, its (possibly raising)
`simulate` method and its `get_backend_information()` value. -/
structure Backend where
  name : String
  simulate : SimRequest → Except String PyDict
  backend_information : PyDict

namespace MockSimulator

/-- `MockSimulator.simulate`: ignores every physical input and returns the
mocked populations together with the `backend_options` it was passed. -/
def simulate (req : SimRequest) : Except String PyDict :=
  .ok [("state_populations", PyVal.list [PyVal.float 0.5, PyVal.float 0.5]),
       ("backend_options", req.backend_options)]

/-- `MockSimulator.get_backend_information()` for the instance a provider
constructs (no backend options). -/
def get_backend_information : PyDict :=
  [("name", PyVal.str "mock_simulator"), ("backend_options", PyVal.dict [])]

/-- The `MockSimulator` instance created by `backend_cls(provider=self)`. -/
def backend : Backend :=
  { name := "mock_simulator"
    simulate := simulate
    backend_information := get_backend_information }

end MockSimulator

namespace MockSimulatorV2

/-- `MockSimulatorV2.simulate`: asserts the dimensionality of each quantity
argument in source order (lattice sites are a length, Rabi frequency and
the detunings are frequencies, the phase is dimensionless, the timegrid is
a time), then converts each to its base unit, then returns the mocked
populations. -/
def simulate (req : SimRequest) : Except String PyDict := do
  let lattice_sites ← getattr_quantity req.lattice_sites "dimensionality"
  pyAssert (lattice_sites.dimensionality = dim_length)
  let global_rabi_frequency ← getattr_quantity req.global_rabi_frequency "dimensionality"
  pyAssert (global_rabi_frequency.dimensionality = dim_frequency)
  let global_phase ← getattr_quantity req.global_phase "dimensionless"
  pyAssert global_phase.dimensionless
  let global_detuning ← getattr_quantity req.global_detuning "dimensionality"
  pyAssert (global_detuning.dimensionality = dim_frequency)
  let local_detuning ← getattr_quantity req.local_detuning "dimensionality"
  pyAssert (local_detuning.dimensionality = dim_frequency)
  let timegrid ← getattr_quantity req.timegrid "dimensionality"
  pyAssert (timegrid.dimensionality = dim_time)
  let _ls ← lattice_sites.to u_meter
  let _rabi ← global_rabi_frequency.to u_hertz
  let _phase ← global_phase.to u_dimensionless
  let _det ← global_detuning.to u_hertz
  let _ldet ← local_detuning.to u_hertz
  let _tg ← timegrid.to u_second
  pure [("state_populations", PyVal.list [PyVal.float 0.5, PyVal.float 0.5]),
        ("backend_options", req.backend_options)]

/-- `MockSimulatorV2.get_backend_information()` for the instance a provider
constructs (no backend options). -/
def get_backend_information : PyDict :=
  [("name", PyVal.str "mock_simulator_v2"), ("backend_options", PyVal.dict [])]

/-- The `MockSimulatorV2` instance created by `backend_cls(provider=self)`. -/
def backend : Backend :=
  { name := "mock_simulator_v2"
    simulate := simulate
    backend_information := get_backend_information }

end MockSimulatorV2

/-- `PasquansProvider._verify_backends`: instantiate each simulator class in
order and store the instances in a dict keyed by `instance.name`. -/
def verify_backends (sims : List Backend) : List (String × Backend) :=
  sims.foldl (fun ret b => pyInsert ret b.name b) []

/-- A `PasquansProvider`: after `__init__`, `_backends` holds the dict built
by `_verify_backends` from the subclass's `_get_simulators()` list. -/
structure Provider where
  _backends : List (String × Backend)

/-- Provider construction from the `_get_simulators()` list. -/
def mk_provider (sims : List Backend) : Provider :=
  ⟨verify_backends sims⟩

/-- `PasquansProvider.backends(name)`: all registered backends, or, for a
truthy `name`, the single backend of that name; raises `ValueError` when
the name is absent.  A falsy name (`None` or `""`) skips the filter. -/
def Provider.backends (p : Provider) (name : Option String) :
    Except String (List Backend) :=
  let bs := p._backends.map Prod.snd
  match name with
  | Option.none => .ok bs
  | some n =>
    if n = "" then .ok bs
    else
      match pyLookup p._backends n with
      | some b => .ok [b]
      | Option.none =>
        .error ("The '" ++ n ++ "' backend is not installed in your system.")

/-- `PasquansProvider.get_backend(name)`: filters via `backends` (whose
`ValueError` propagates) and raises `ValueError` when more than one or no
backend remains. -/
def Provider.get_backend (p : Provider) (name : Option String) :
    Except String Backend :=
  match p.backends name with
  | .error e => .error e
  | .ok backends =>
    if backends.length > 1 then
      .error "More than one backend matches the criteria"
    else
      match backends with
      | [] => .error "No backend matches the criteria"
      | b :: _ => .ok b

/-- `MockProvider`: `_get_simulators()` returns `[MockSimulator, MockSimulatorV2]`. -/
def MockProvider : Provider :=
  mk_provider [MockSimulator.backend, MockSimulatorV2.backend]

/-- The dispatch function `simulate`: resolve the backend (resolution
failures propagate), run its `simulate` catching any exception into
`result["error"]`, and in the `finally` block always attach
`result["backend_information"]`. -/
def simulate (req : SimRequest) (backend : String) (provider : Provider) :
    Except String PyDict :=
  match provider.get_backend (some backend) with
  | .error e => .error e
  | .ok backend_simulator =>
    let result : PyDict :=
      match backend_simulator.simulate req with
      | .ok r => r
      | .error e => pyInsert [] "error" (PyVal.str e)
    .ok (pyInsert result "backend_information"
      (PyVal.dict backend_simulator.backend_information))

/-- The default of the `backend` parameter of the dispatch function. -/
def default_backend : String := "Bull"

/-- The default of the `provider` parameter of the dispatch function. -/
def default_provider : Provider := MockProvider

/-- The request of `tests/test_simulate_function.py::test_simulate`:
plain float profiles, two lattice sites, `backend_options={}`. -/
def req9 : SimRequest :=
  { lattice_sites := .list [.list [.float 0, .float 0, .float 0],
      .list [.float 1, .float 1, .float 1]]
    global_rabi_frequency := .list [.float 1, .float 1]
    global_phase := .list [.float 0, .float 0]
    global_detuning := .list [.float 0, .float 0]
    local_detuning := .list [.float 0, .float 0]
    init_state := .list [.float 0, .float 0]
    timegrid := .list [.float 0, .float 1]
    backend_options := .dict [] }

/-- A request whose timeline profiles have mismatched lengths: the Rabi
frequency and timegrid have two samples but the phase has three. -/
def mismatched_request : SimRequest :=
  { lattice_sites := .list [.list [.float 0, .float 0],
      .list [.float 1, .float 1]]
    global_rabi_frequency := .list [.float 1, .float 1]
    global_phase := .list [.float 0, .float 0, .float 0]
    global_detuning := .list [.float 0, .float 0]
    local_detuning := .list [.float 0, .float 0]
    init_state := .list [.float 0, .float 0]
    timegrid := .list [.float 0, .float 1]
    backend_options := .dict [] }

/-- A quantity-valued request whose global Rabi frequency carries a length
unit (metres) where a frequency is expected; every other argument has its
expected dimension. -/
def length_rabi_request : SimRequest :=
  { lattice_sites := .quant (Q_ [0, 0, 0, 1, 1, 1] u_micrometer)
    global_rabi_frequency := .quant (Q_ [1, 1] u_meter)
    global_phase := .quant (Q_ [0, 0] u_dimensionless)
    global_detuning := .quant (Q_ [0, 0] u_megahertz)
    local_detuning := .quant (Q_ [0, 0] u_megahertz)
    init_state := .list [.float 0, .float 0]
    timegrid := .quant (Q_ [0, 1] u_microsecond)
    backend_options := .dict [] }

/-- A request whose physical profiles are all pint quantities, used to
reason about `MockSimulatorV2.simulate` parametrically. -/
def quantity_request (lsq rq pq dq ldq tgq : Quantity) (st opts : PyVal) :
    SimRequest :=
  { lattice_sites := .quant lsq
    global_rabi_frequency := .quant rq
    global_phase := .quant pq
    global_detuning := .quant dq
    local_detuning := .quant ldq
    init_state := st
    timegrid := .quant tgq
    backend_options := opts }

/-- A test fixture: a second backend instance whose constructor yields the
same name as `MockSimulator`, to exercise the name-collision path of
`_verify_backends`. -/
def colliding_backend : Backend :=
  { MockSimulatorV2.backend with name := "mock_simulator" }

end Pasquans

namespace Pasquans

/-! ### Association-list (Python dict) lemmas -/

theorem any_key_iff_mem {α : Type} (d : List (String × α)) (k : String) :
    d.any (fun p => p.1 == k) = true ↔ k ∈ d.map Prod.fst := by
  rw [List.any_eq_true]
  constructor
  · rintro ⟨p, hp, hbeq⟩
    exact List.mem_map.mpr ⟨p, hp, eq_of_beq hbeq⟩
  · intro hmem
    obtain ⟨p, hp, hfst⟩ := List.mem_map.mp hmem
    exact ⟨p, hp, by simp [hfst]⟩

theorem keys_map_update {α : Type} (d : List (String × α)) (k : String) (v : α) :
    (d.map (fun p => if p.1 == k then (k, v) else p)).map Prod.fst
      = d.map Prod.fst := by
  induction d with
  | nil => rfl
  | cons p rest ih =>
    simp only [List.map_cons, ih, List.cons.injEq, and_true]
    by_cases hp : (p.1 == k) = true
    · simp [hp, (eq_of_beq hp).symm]
    · simp [hp]

theorem keys_pyInsert {α : Type} (d : List (String × α)) (k : String) (v : α) :
    (pyInsert d k v).map Prod.fst =
      if d.any (fun p => p.1 == k) then d.map Prod.fst
      else d.map Prod.fst ++ [k] := by
  unfold pyInsert
  by_cases h : d.any (fun p => p.1 == k)
  · rw [if_pos h, if_pos h]
    exact keys_map_update d k v
  · rw [if_neg h, if_neg h]
    simp

theorem nodup_keys_pyInsert {α : Type} (d : List (String × α)) (k : String)
    (v : α) (h : (d.map Prod.fst).Nodup) :
    ((pyInsert d k v).map Prod.fst).Nodup := by
  rw [keys_pyInsert]
  by_cases ha : d.any (fun p => p.1 == k)
  · simpa [ha] using h
  · have hk : k ∉ d.map Prod.fst := fun hmem =>
      ha ((any_key_iff_mem d k).mpr hmem)
    rw [if_neg ha]
    refine List.Nodup.append h (List.nodup_singleton k) ?_
    intro a hal har
    rw [List.mem_singleton] at har
    subst har
    exact hk hal

theorem pyInsert_of_not_mem {α : Type} (d : List (String × α)) (k : String)
    (v : α) (h : k ∉ d.map Prod.fst) :
    pyInsert d k v = d ++ [(k, v)] := by
  unfold pyInsert
  have ha : d.any (fun p => p.1 == k) = false := by
    rw [← Bool.not_eq_true]
    exact fun hc => h ((any_key_iff_mem d k).mp hc)
  simp [ha]

theorem find_update_ne {α : Type} (d : List (String × α)) (k k' : String)
    (v : α) (h : ¬ k' = k) :
    (d.map (fun p => if p.1 == k then (k, v) else p)).find? (fun p => p.1 == k')
      = d.find? (fun p => p.1 == k') := by
  induction d with
  | nil => rfl
  | cons p rest ih =>
    simp only [List.map_cons]
    by_cases hp : (p.1 == k) = true
    · have hpk : p.1 = k := eq_of_beq hp
      have h1 : (k == k') = false := beq_false_of_ne fun e => h e.symm
      have h2 : (p.1 == k') = false := by
        rw [hpk]
        exact h1
      rw [if_pos hp]
      simp only [List.find?_cons, h1, h2]
      exact ih
    · rw [if_neg hp]
      cases hk' : (p.1 == k') with
      | true => simp only [List.find?_cons, hk']
      | false =>
        simp only [List.find?_cons, hk']
        exact ih

theorem find_update_self {α : Type} (d : List (String × α)) (k : String)
    (v : α) (h : d.any (fun p => p.1 == k) = true) :
    (d.map (fun p => if p.1 == k then (k, v) else p)).find? (fun p => p.1 == k)
      = some (k, v) := by
  induction d with
  | nil => simp at h
  | cons q rest ih =>
    simp only [List.map_cons]
    by_cases hq : (q.1 == k) = true
    · rw [if_pos hq]
      simp only [List.find?_cons, beq_self_eq_true]
    · rw [if_neg hq]
      rw [Bool.not_eq_true] at hq
      simp only [List.find?_cons, hq]
      exact ih (by simpa [List.any_cons, hq] using h)

theorem pyLookup_pyInsert_self {α : Type} (d : List (String × α)) (k : String)
    (v : α) : pyLookup (pyInsert d k v) k = some v := by
  unfold pyInsert pyLookup
  by_cases h : d.any (fun p => p.1 == k)
  · rw [if_pos h, find_update_self d k v h]
    rfl
  · rw [if_neg h, List.find?_append]
    have hnone : d.find? (fun p => p.1 == k) = none := by
      rw [List.find?_eq_none]
      intro x hx hbeq
      exact absurd (List.any_eq_true.mpr ⟨x, hx, hbeq⟩) h
    rw [hnone]
    simp

theorem pyLookup_pyInsert_ne {α : Type} (d : List (String × α)) (k k' : String)
    (v : α) (h : ¬ k' = k) :
    pyLookup (pyInsert d k v) k' = pyLookup d k' := by
  unfold pyInsert pyLookup
  by_cases ha : d.any (fun p => p.1 == k)
  · rw [if_pos ha, find_update_ne d k k' v h]
  · rw [if_neg ha, List.find?_append]
    have hone : ([(k, v)].find? (fun p => p.1 == k')) = none := by
      rw [List.find?_eq_none]
      intro x hx
      rw [List.mem_singleton] at hx
      subst hx
      simp only [beq_iff_eq]
      exact fun e => h e.symm
    rw [hone]
    simp

/-! ### Provider registry lemmas -/

theorem nodup_keys_fold (sims : List Backend) :
    ∀ acc : List (String × Backend), (acc.map Prod.fst).Nodup →
      ((sims.foldl (fun ret b => pyInsert ret b.name b) acc).map Prod.fst).Nodup := by
  induction sims with
  | nil =>
    intro acc h
    simpa using h
  | cons b rest ih =>
    intro acc h
    rw [List.foldl_cons]
    exact ih _ (nodup_keys_pyInsert acc b.name b h)

theorem fold_verify_of_nodup (sims : List Backend) :
    ∀ acc : List (String × Backend),
      (∀ b ∈ sims, b.name ∉ acc.map Prod.fst) →
      (sims.map Backend.name).Nodup →
      sims.foldl (fun ret b => pyInsert ret b.name b) acc
        = acc ++ sims.map (fun b => (b.name, b)) := by
  induction sims with
  | nil =>
    intro acc _ _
    simp
  | cons b rest ih =>
    intro acc hdisj hnodup
    rw [List.foldl_cons, pyInsert_of_not_mem acc b.name b (hdisj b (by simp))]
    rw [List.map_cons, List.nodup_cons] at hnodup
    have hstep : ∀ b' ∈ rest, b'.name ∉ (acc ++ [(b.name, b)]).map Prod.fst := by
      intro b' hb'
      rw [List.map_append, List.mem_append]
      rintro (hacc | hsingle)
      · exact hdisj b' (List.mem_cons_of_mem b hb') hacc
      · rw [List.map_singleton, List.mem_singleton] at hsingle
        have : b'.name = b.name := hsingle
        exact hnodup.1 (this ▸ List.mem_map_of_mem Backend.name hb')
    rw [ih (acc ++ [(b.name, b)]) hstep hnodup.2, List.append_assoc]
    rfl

/-! ### Claim theorems -/

/-- Claim C1: whenever the resolved backend's `simulate` raises, the
dispatch function catches the exception and returns (does not re-raise) a
mapping whose `error` key holds the exception's message string. -/
theorem dispatch_catches_simulation_error (req : SimRequest) (name : String)
    (p : Provider) (b : Backend) (msg : String)
    (hb : p.get_backend (some name) = Except.ok b)
    (hf : b.simulate req = Except.error msg) :
    simulate req name p = Except.ok
      [("error", PyVal.str msg),
       ("backend_information", PyVal.dict b.backend_information)] := by
  simp only [simulate, hb, hf]
  rfl

/-- Witness for C1: dispatching `mock_simulator_v2` on a request whose Rabi
frequency carries a length unit makes the backend raise, and the envelope
returned by the dispatch function annotates the message in-band. -/
theorem dispatch_catches_simulation_error_witness :
    simulate length_rabi_request "mock_simulator_v2" MockProvider
      = Except.ok
        [("error", PyVal.str ""),
         ("backend_information", PyVal.dict MockSimulatorV2.get_backend_information)] :=
  dispatch_catches_simulation_error length_rabi_request "mock_simulator_v2"
    MockProvider MockSimulatorV2.backend "" rfl rfl

/-- Claim C2: a failure of `provider.get_backend(backend)` propagates out of
the dispatch function uncaught; it is never turned into an error-annotated
result mapping. -/
theorem dispatch_propagates_resolution_failure (req : SimRequest)
    (name : String) (p : Provider) (e : String)
    (h : p.get_backend (some name) = Except.error e) :
    simulate req name p = Except.error e := by
  unfold simulate
  rw [h]

/-- Witness for C2: a nonexistent backend name on `MockProvider` makes the
dispatch function propagate the not-found `ValueError`. -/
theorem dispatch_propagates_resolution_failure_witness :
    simulate req9 "nonexistent" MockProvider
      = Except.error "The 'nonexistent' backend is not installed in your system." :=
  dispatch_propagates_resolution_failure req9 "nonexistent" MockProvider
    "The 'nonexistent' backend is not installed in your system." rfl

/-- Counterexample to claim C6 as stated: `MockSimulator.simulate`, given
profiles of mismatched lengths (two Rabi samples against three phase
samples), performs no validation and returns the mocked success result
with no `error` entry. -/
theorem mock_simulator_ignores_length_mismatch :
    pyValLen mismatched_request.global_rabi_frequency = some 2
    ∧ pyValLen mismatched_request.global_phase = some 3
    ∧ ∃ d, MockSimulator.simulate mismatched_request = Except.ok d
        ∧ pyLookup d "error" = Option.none
        ∧ pyLookup d "state_populations"
            = some (PyVal.list [PyVal.float 0.5, PyVal.float 0.5]) :=
  ⟨rfl, rfl, _, rfl, rfl, rfl⟩

/-- Claim C6 as amended: `MockSimulator.simulate` performs no length
validation at all — for every request, mismatched profile lengths
included, it returns the mocked populations with no `error` entry. -/
theorem mock_simulator_no_length_validation (req : SimRequest) :
    ∃ d, MockSimulator.simulate req = Except.ok d
      ∧ pyLookup d "error" = Option.none
      ∧ pyLookup d "state_populations"
          = some (PyVal.list [PyVal.float 0.5, PyVal.float 0.5]) :=
  ⟨_, rfl, rfl, rfl⟩

/-- Claim C4: `get_backend(name)` returns the unique registered backend of
that name when one is registered, fails with the not-found `ValueError`
when none is, and with the ambiguous-match `ValueError` when more than one
backend remains — in particular with no name on a provider holding two or
more backends.  (A Python-truthy, i.e. non-empty, name is assumed for the
named cases, since a falsy name skips the filter.) -/
theorem get_backend_spec (p : Provider) (n : String) (hn : ¬ n = "") :
    (∀ b, pyLookup p._backends n = some b →
        p.get_backend (some n) = Except.ok b)
    ∧ (pyLookup p._backends n = Option.none →
        p.get_backend (some n) = Except.error
          ("The '" ++ n ++ "' backend is not installed in your system."))
    ∧ (2 ≤ p._backends.length →
        p.get_backend Option.none
          = Except.error "More than one backend matches the criteria") := by
  refine ⟨?_, ?_, ?_⟩
  · intro b hb
    simp only [Provider.get_backend, Provider.backends, hn, if_false, hb]
    rfl
  · intro hb
    simp only [Provider.get_backend, Provider.backends, hn, if_false, hb]
  · intro h2
    have hlen : (p._backends.map Prod.snd).length > 1 := by
      rw [List.length_map]
      omega
    simp only [Provider.get_backend, Provider.backends]
    rw [if_pos hlen]

/-- Witness for C4: on `MockProvider`, the name `mock_simulator` resolves
to the sole matching instance, a nonexistent name raises the not-found
`ValueError`, and no name at all (two registered backends) raises the
ambiguous-match `ValueError`. -/
theorem get_backend_spec_witness :
    MockProvider.get_backend (some "mock_simulator")
        = Except.ok MockSimulator.backend
    ∧ MockProvider.get_backend (some "nonexistent")
        = Except.error "The 'nonexistent' backend is not installed in your system."
    ∧ MockProvider.get_backend Option.none
        = Except.error "More than one backend matches the criteria" := by
  refine ⟨?_, ?_, ?_⟩
  · exact (get_backend_spec MockProvider "mock_simulator" (by decide)).1
      MockSimulator.backend rfl
  · exact (get_backend_spec MockProvider "nonexistent" (by decide)).2.1 rfl
  · exact (get_backend_spec MockProvider "nonexistent" (by decide)).2.2 (by decide)

/-- Claim C5: `_verify_backends` registers backends under pairwise-distinct
names; when the constructors' names are already distinct the registry lists
exactly the constructed instances in registration order; and when two
constructors yield the same name the collision silently overwrites the
earlier entry (last registered wins) instead of raising. -/
theorem verify_backends_spec (sims : List Backend) :
    ((verify_backends sims).map Prod.fst).Nodup
    ∧ ((sims.map Backend.name).Nodup →
        verify_backends sims = sims.map (fun b => (b.name, b)))
    ∧ (∀ b1 b2 : Backend, b1.name = b2.name →
        verify_backends [b1, b2] = [(b1.name, b2)]) := by
  refine ⟨nodup_keys_fold sims [] (by simp), fun h => ?_, fun b1 b2 h => ?_⟩
  · have := fold_verify_of_nodup sims [] (by simp) h
    simpa [verify_backends] using this
  · unfold verify_backends
    simp only [List.foldl_cons, List.foldl_nil]
    rw [pyInsert_of_not_mem [] b1.name b1 (by simp), List.nil_append]
    unfold pyInsert
    simp [← h]

/-- Witness for C5: `MockProvider`'s two distinctly-named constructors are
registered in order, and a colliding second constructor with the name
`mock_simulator` silently replaces the first instance. -/
theorem verify_backends_spec_witness :
    verify_backends [MockSimulator.backend, MockSimulatorV2.backend]
      = [("mock_simulator", MockSimulator.backend),
         ("mock_simulator_v2", MockSimulatorV2.backend)]
    ∧ verify_backends [MockSimulator.backend, colliding_backend]
      = [("mock_simulator", colliding_backend)] := by
  refine ⟨?_, ?_⟩
  · exact (verify_backends_spec
      [MockSimulator.backend, MockSimulatorV2.backend]).2.1 (by decide)
  · exact (verify_backends_spec
      [MockSimulator.backend, colliding_backend]).2.2
      MockSimulator.backend colliding_backend rfl

/-- Counterexample to claim C3 as stated: the spec's own example — a
length-unit quantity where a frequency is expected — makes
`MockSimulatorV2` fail through a bare `assert`, whose `str(e)` is `""`;
the failing dispatch call therefore carries an EMPTY error string, not a
non-empty one. -/
theorem dispatch_error_string_can_be_empty :
    ∃ d, simulate length_rabi_request "mock_simulator_v2" MockProvider
        = Except.ok d
      ∧ pyLookup d "error" = some (PyVal.str "")
      ∧ pyLookup d "backend_information"
          = some (PyVal.dict MockSimulatorV2.get_backend_information) :=
  ⟨_, rfl, rfl, rfl⟩

/-- Claim C3 as amended: every dispatch result carries
`backend_information` from the resolved backend, on success just as on
failure; on failure the `error` key holds the raised message (which may be
empty, e.g. for a bare assertion failure); on success no `error` key is
added (provided the backend's own result has none). -/
theorem dispatch_envelope_invariant (req : SimRequest) (name : String)
    (p : Provider) (b : Backend)
    (hb : p.get_backend (some name) = Except.ok b) :
    (∃ d, simulate req name p = Except.ok d
        ∧ pyLookup d "backend_information"
            = some (PyVal.dict b.backend_information))
    ∧ (∀ msg, b.simulate req = Except.error msg →
        simulate req name p = Except.ok
          [("error", PyVal.str msg),
           ("backend_information", PyVal.dict b.backend_information)])
    ∧ (∀ d0 d, b.simulate req = Except.ok d0 →
        pyLookup d0 "error" = Option.none →
        simulate req name p = Except.ok d →
        pyLookup d "error" = Option.none) := by
  refine ⟨?_, ?_, ?_⟩
  · cases hf : b.simulate req with
    | ok r =>
      refine ⟨pyInsert r "backend_information"
        (PyVal.dict b.backend_information), ?_, pyLookup_pyInsert_self ..⟩
      simp only [simulate, hb, hf]
    | error e =>
      refine ⟨pyInsert (pyInsert [] "error" (PyVal.str e)) "backend_information"
        (PyVal.dict b.backend_information), ?_, pyLookup_pyInsert_self ..⟩
      simp only [simulate, hb, hf]
  · intro msg hf
    simp only [simulate, hb, hf]
    rfl
  · intro d0 d hf hno hd
    have hsim : simulate req name p = Except.ok
        (pyInsert d0 "backend_information" (PyVal.dict b.backend_information)) := by
      simp only [simulate, hb, hf]
    rw [hsim] at hd
    injection hd with hd
    rw [← hd, pyLookup_pyInsert_ne _ _ _ _ (by decide)]
    exact hno

/-- Witness for C3 (amended): on `MockProvider`, a successful
`mock_simulator` dispatch carries its `backend_information`, and the
failing `mock_simulator_v2` dispatch still returns an envelope holding the
raised message alongside `backend_information`. -/
theorem dispatch_envelope_invariant_witness :
    (∃ d, simulate req9 "mock_simulator" MockProvider = Except.ok d
        ∧ pyLookup d "backend_information"
            = some (PyVal.dict MockSimulator.get_backend_information))
    ∧ simulate length_rabi_request "mock_simulator_v2" MockProvider
        = Except.ok
          [("error", PyVal.str ""),
           ("backend_information", PyVal.dict MockSimulatorV2.get_backend_information)] := by
  refine ⟨?_, ?_⟩
  · exact (dispatch_envelope_invariant req9 "mock_simulator" MockProvider
      MockSimulator.backend rfl).1
  · exact (dispatch_envelope_invariant length_rabi_request "mock_simulator_v2"
      MockProvider MockSimulatorV2.backend rfl).2.1 "" rfl

/-- Claim C8: converting a quantity of 1 MHz to rad/s yields exactly
1 000 000 rad/s: the scaling is linear, with no implicit factor of 2π. -/
theorem conversion_mhz_to_rad_per_s :
    (Q_ [1] u_megahertz).to u_rad_per_second
      = Except.ok (Q_ [1000000] u_rad_per_second) := by
  simp [Q_, Quantity.to, u_megahertz, u_rad_per_second, dim_frequency]

/-- Claim C9: dispatching the well-formed plain-float request to
`mock_simulator` on `MockProvider` yields `state_populations == [0.5, 0.5]`,
no `error` key, and `backend_information.name == "mock_simulator"`. -/
theorem simulate_mock_simulator_envelope :
    ∃ d, simulate req9 "mock_simulator" MockProvider = Except.ok d
      ∧ pyLookup d "state_populations"
          = some (PyVal.list [PyVal.float 0.5, PyVal.float 0.5])
      ∧ pyLookup d "error" = Option.none
      ∧ ∃ bi, pyLookup d "backend_information" = some (PyVal.dict bi)
          ∧ pyLookup bi "name" = some (PyVal.str "mock_simulator") :=
  ⟨_, rfl, rfl, rfl, _, rfl, rfl⟩

/-- Counterexample to claim C7 as stated: the wrong-dimension failure of
`MockSimulatorV2.simulate` is a bare `assert`, so the raised error carries
the empty message — not a descriptive one. -/
theorem mock_simulator_v2_error_not_descriptive :
    (Q_ [1, 1] u_meter).dimensionality ≠ dim_frequency
    ∧ MockSimulatorV2.simulate length_rabi_request = Except.error "" :=
  ⟨by decide, rfl⟩

/-- Claim C7 as amended: with quantity inputs, `MockSimulatorV2.simulate`
fails fast — with a bare assertion failure, whose message is empty —
before performing any computation whenever some argument's dimensionality
differs from its expected dimension; with correctly dimensioned inputs
every check passes and the mocked result is returned. -/
theorem mock_simulator_v2_dimension_checks
    (lsq rq pq dq ldq tgq : Quantity) (st opts : PyVal) :
    ((lsq.dimensionality = dim_length ∧ rq.dimensionality = dim_frequency
      ∧ pq.dimensionless = true ∧ dq.dimensionality = dim_frequency
      ∧ ldq.dimensionality = dim_frequency ∧ tgq.dimensionality = dim_time) →
      MockSimulatorV2.simulate (quantity_request lsq rq pq dq ldq tgq st opts)
        = Except.ok
          [("state_populations", PyVal.list [PyVal.float 0.5, PyVal.float 0.5]),
           ("backend_options", opts)])
    ∧ (¬ (lsq.dimensionality = dim_length ∧ rq.dimensionality = dim_frequency
      ∧ pq.dimensionless = true ∧ dq.dimensionality = dim_frequency
      ∧ ldq.dimensionality = dim_frequency ∧ tgq.dimensionality = dim_time) →
      MockSimulatorV2.simulate (quantity_request lsq rq pq dq ldq tgq st opts)
        = Except.error "") := by
  constructor
  · rintro ⟨h1, h2, h3, h4, h5, h6⟩
    obtain ⟨m1, d1, s1⟩ := lsq
    obtain ⟨m2, d2, s2⟩ := rq
    obtain ⟨m3, d3, s3⟩ := pq
    obtain ⟨m4, d4, s4⟩ := dq
    obtain ⟨m5, d5, s5⟩ := ldq
    obtain ⟨m6, d6, s6⟩ := tgq
    simp only [Quantity.dimensionality] at h1 h2 h4 h5 h6
    simp only [Quantity.dimensionless, decide_eq_true_eq] at h3
    subst h1 h2 h3 h4 h5 h6
    rfl
  · intro hn
    by_cases h1 : lsq.dimensionality = dim_length
    case neg =>
      have e1 := decide_eq_false h1
      simp [MockSimulatorV2.simulate, quantity_request, getattr_quantity,
        pyAssert, Bind.bind, Except.bind, e1]
    case pos =>
    by_cases h2 : rq.dimensionality = dim_frequency
    case neg =>
      have e1 := decide_eq_true h1
      have e2 := decide_eq_false h2
      simp [MockSimulatorV2.simulate, quantity_request, getattr_quantity,
        pyAssert, Bind.bind, Except.bind, e1, e2]
    case pos =>
    by_cases h3 : pq.dimensionless = true
    case neg =>
      rw [Bool.not_eq_true] at h3
      have e1 := decide_eq_true h1
      have e2 := decide_eq_true h2
      simp [MockSimulatorV2.simulate, quantity_request, getattr_quantity,
        pyAssert, Bind.bind, Except.bind, e1, e2, h3]
    case pos =>
    by_cases h4 : dq.dimensionality = dim_frequency
    case neg =>
      have e1 := decide_eq_true h1
      have e2 := decide_eq_true h2
      have e4 := decide_eq_false h4
      simp [MockSimulatorV2.simulate, quantity_request, getattr_quantity,
        pyAssert, Bind.bind, Except.bind, e1, e2, h3, e4]
    case pos =>
    by_cases h5 : ldq.dimensionality = dim_frequency
    case neg =>
      have e1 := decide_eq_true h1
      have e2 := decide_eq_true h2
      have e4 := decide_eq_true h4
      have e5 := decide_eq_false h5
      simp [MockSimulatorV2.simulate, quantity_request, getattr_quantity,
        pyAssert, Bind.bind, Except.bind, e1, e2, h3, e4, e5]
    case pos =>
    by_cases h6 : tgq.dimensionality = dim_time
    case neg =>
      have e1 := decide_eq_true h1
      have e2 := decide_eq_true h2
      have e4 := decide_eq_true h4
      have e5 := decide_eq_true h5
      have e6 := decide_eq_false h6
      simp [MockSimulatorV2.simulate, quantity_request, getattr_quantity,
        pyAssert, Bind.bind, Except.bind, e1, e2, h3, e4, e5, e6]
    case pos =>
      exact absurd ⟨h1, h2, h3, h4, h5, h6⟩ hn

/-- Witness for C7 (amended): correctly dimensioned quantity inputs pass
every check and return the mocked result, and a Rabi frequency given in
metres makes the same call fail before any computation. -/
theorem mock_simulator_v2_dimension_checks_witness :
    MockSimulatorV2.simulate
        (quantity_request (Q_ [0, 0, 0, 1, 1, 1] u_micrometer)
          (Q_ [1, 1] u_megahertz) (Q_ [0, 0] u_dimensionless)
          (Q_ [0, 0] u_megahertz) (Q_ [0, 0] u_megahertz)
          (Q_ [0, 1] u_microsecond) (PyVal.list []) (PyVal.dict []))
      = Except.ok
        [("state_populations", PyVal.list [PyVal.float 0.5, PyVal.float 0.5]),
         ("backend_options", PyVal.dict [])]
    ∧ MockSimulatorV2.simulate
        (quantity_request (Q_ [0, 0, 0, 1, 1, 1] u_micrometer)
          (Q_ [1, 1] u_meter) (Q_ [0, 0] u_dimensionless)
          (Q_ [0, 0] u_megahertz) (Q_ [0, 0] u_megahertz)
          (Q_ [0, 1] u_microsecond) (PyVal.list []) (PyVal.dict []))
      = Except.error "" := by
  refine ⟨?_, ?_⟩
  · exact (mock_simulator_v2_dimension_checks (Q_ [0, 0, 0, 1, 1, 1] u_micrometer)
      (Q_ [1, 1] u_megahertz) (Q_ [0, 0] u_dimensionless) (Q_ [0, 0] u_megahertz)
      (Q_ [0, 0] u_megahertz) (Q_ [0, 1] u_microsecond) (PyVal.list [])
      (PyVal.dict [])).1 (by decide)
  · exact (mock_simulator_v2_dimension_checks (Q_ [0, 0, 0, 1, 1, 1] u_micrometer)
      (Q_ [1, 1] u_meter) (Q_ [0, 0] u_dimensionless) (Q_ [0, 0] u_megahertz)
      (Q_ [0, 0] u_megahertz) (Q_ [0, 1] u_microsecond) (PyVal.list [])
      (PyVal.dict [])).2 (by decide)

/-- Claim C10: the default provider registers exactly the backends named
`mock_simulator` and `mock_simulator_v2`, so a call relying on the default
arguments (`backend="Bull"`, `provider=MockProvider()`) always raises the
not-found `ValueError` and never returns a result mapping. -/
theorem default_backend_never_resolves :
    MockProvider._backends.map Prod.fst = ["mock_simulator", "mock_simulator_v2"]
    ∧ ∀ req : SimRequest,
        simulate req default_backend default_provider
          = Except.error "The 'Bull' backend is not installed in your system." :=
  ⟨rfl, fun _ => rfl⟩

end Pasquans
